import Mathlib

/-!
Verification development for the concurrent extraction/scoring orchestrator of the
resume/job matching application (module `core/analyzer.py`, class `ResumeAnalyzer`).

The Python source is shallowly embedded:
* Python dicts that flow through the orchestrator are modelled as association lists
  (`PyDict`); nested JSON values are abstracted to strings, which is sufficient because
  the orchestrator only ever tests key membership (`"error" in d`), truthiness
  (`if cached_result:`) and passes records around unchanged.
* The external Anthropic client, `json.loads`, `json.dumps` and `hash` are external
  collaborators (not part of the repository); they are parameters of the embedding
  (fields of `AnalyzerEnv`), as is the possibility that a piece of concurrency
  machinery (event loop creation, `asyncio.run`, an executor) raises or times out
  (the `...Exn` fields).  A `some msg` / `true` value of such a field means the
  corresponding `try:` block raised.
* The regular-expression battery of `_extract_score_from_response`,
  `_extract_from_calculation_section` and `_parse_explanation_breakdown` is compiled
  pattern-by-pattern into executable character-list matchers with Python `re.search`
  semantics (leftmost match, lazy/greedy as in the written pattern, `IGNORECASE`
  everywhere the source passes it, `.` not matching a newline unless `DOTALL`,
  `$` matching at the end of the text or before a trailing newline).
* Concurrently scheduled coroutine/thread pairs are sequentialised (resume first,
  then job); the claims settled here do not depend on the interleaving.
-/

/-! ### Character-level utilities (Python `re` primitive classes) -/

/-- Python whitespace class `\s` restricted to ASCII, which is what the analyzer's
response texts contain. -/
def isPySpace (c : Char) : Bool :=
  c = ' ' || c = '\t' || c = '\n' || c = '\r' || c = '\x0b' || c = '\x0c'

/-- Skip a maximal run of `\s*`. -/
def dropPySpaces (s : List Char) : List Char :=
  s.dropWhile isPySpace

/-- Maximal digit run `\d+` (greedy): returns the digits and the rest. -/
def takeDigits : List Char → List Char × List Char
  | [] => ([], [])
  | c :: r =>
    if c.isDigit then
      let p := takeDigits r
      (c :: p.1, p.2)
    else ([], c :: r)

/-- Numeric value of a digit run, as Python `int` of the matched group. -/
def digitsToNat (ds : List Char) : Nat :=
  ds.foldl (fun n c => 10 * n + (c.toNat - 48)) 0

/-- Case-insensitive literal match: consume `pat` from the front of `s`
(`re.IGNORECASE` literal), returning the rest on success. -/
def stripLitCI : List Char → List Char → Option (List Char)
  | [], s => some s
  | _ :: _, [] => none
  | p :: ps, c :: cs => if p.toLower = c.toLower then stripLitCI ps cs else none

/-- `re.search` position scan: try the matcher at every start position, leftmost
first (the final, empty position included). -/
def searchG {α : Type} (f : List Char → Option α) : List Char → Option α
  | [] => f []
  | c :: r =>
    match f (c :: r) with
    | some x => some x
    | none => searchG f r

/-- Lazy gap `.*?` without `DOTALL`: try the continuation at the current position,
then grow the gap one non-newline character at a time. -/
def gapScan {α : Type} (f : List Char → Option α) : List Char → Option α
  | [] => f []
  | c :: r =>
    match f (c :: r) with
    | some x => some x
    | none => if c = '\n' then none else gapScan f r

/-- Lazy group `(.*?)` with `DOTALL`, stopped by the lookahead
`(?=<stop>|$)`: collect characters until the stop literal matches (case
insensitively), the end of the text is reached, or only a trailing newline
remains (Python `$`). -/
def takeUntilStop (stop : List Char) : List Char → List Char
  | [] => []
  | c :: r =>
    if (stripLitCI stop (c :: r)).isSome then []
    else if r.isEmpty && c = '\n' then []
    else c :: takeUntilStop stop r

/-- Python `str.strip()`: remove leading and trailing whitespace. -/
def pyStrip (s : List Char) : List Char :=
  ((s.dropWhile isPySpace).reverse.dropWhile isPySpace).reverse

/-! ### The individual patterns of `_extract_score_from_response`

Each matcher has type `List Char → Option (Nat × List Char)`: on success it returns
the captured group's numeric value and the text remaining after the whole match
(the latter is needed for `re.findall`'s non-overlapping scan). -/

/-- Literal fragment `/100`. -/
def litSlash100 : List Char := "/100".toList

/-- Literal fragment `100`. -/
def lit100 : List Char := "100".toList

/-- Canonical marker literal `FINAL COMPATIBILITY SCORE:`. -/
def fcsMarker : List Char := "FINAL COMPATIBILITY SCORE:".toList

/-- Pattern `=\s*(\d+)/100` at the current position. -/
def matchEqSlash100 : List Char → Option (Nat × List Char)
  | '=' :: r =>
    let r1 := dropPySpaces r
    match takeDigits r1 with
    | ([], _) => none
    | (ds, r2) =>
      match stripLitCI litSlash100 r2 with
      | some rest => some (digitsToNat ds, rest)
      | none => none
  | _ => none

/-- Pattern `=\s*(\d+)\s*/\s*100` at the current position. -/
def matchEqSpacedSlash100 : List Char → Option (Nat × List Char)
  | '=' :: r =>
    let r1 := dropPySpaces r
    match takeDigits r1 with
    | ([], _) => none
    | (ds, r2) =>
      match dropPySpaces r2 with
      | '/' :: r3 =>
        match stripLitCI lit100 (dropPySpaces r3) with
        | some rest => some (digitsToNat ds, rest)
        | none => none
      | _ => none
  | _ => none

/-- Pattern `=\s*(\d+)` at the current position (tail of calc pattern 4). -/
def matchEqNum : List Char → Option (Nat × List Char)
  | '=' :: r =>
    let r1 := dropPySpaces r
    match takeDigits r1 with
    | ([], _) => none
    | (ds, r2) => some (digitsToNat ds, r2)
  | _ => none

/-- Pattern `FINAL COMPATIBILITY SCORE:.*?=\s*(\d+)/100` at the current position. -/
def matchCalcPat3 (s : List Char) : Option (Nat × List Char) :=
  match stripLitCI fcsMarker s with
  | some r => gapScan matchEqSlash100 r
  | none => none

/-- Pattern `FINAL COMPATIBILITY SCORE:.*?=\s*(\d+)` at the current position. -/
def matchCalcPat4 (s : List Char) : Option (Nat × List Char) :=
  match stripLitCI fcsMarker s with
  | some r => gapScan matchEqNum r
  | none => none

/-- Pattern `FINAL COMPATIBILITY SCORE:\s*(\d+)/100` at the current position. -/
def matchSimple1 (s : List Char) : Option (Nat × List Char) :=
  match stripLitCI fcsMarker s with
  | some r =>
    match takeDigits (dropPySpaces r) with
    | ([], _) => none
    | (ds, r2) =>
      match stripLitCI litSlash100 r2 with
      | some rest => some (digitsToNat ds, rest)
      | none => none
  | none => none

/-- Pattern `\*\*FINAL COMPATIBILITY SCORE:\s*(\d+)/100\*\*` at the current position. -/
def matchSimple2 (s : List Char) : Option (Nat × List Char) :=
  match stripLitCI ("**FINAL COMPATIBILITY SCORE:".toList) s with
  | some r =>
    match takeDigits (dropPySpaces r) with
    | ([], _) => none
    | (ds, r2) =>
      match stripLitCI ("/100**".toList) r2 with
      | some rest => some (digitsToNat ds, rest)
      | none => none
  | none => none

/-- Pattern `FINAL COMPATIBILITY SCORE:\s*(\d+)` at the current position. -/
def matchSimple3 (s : List Char) : Option (Nat × List Char) :=
  match stripLitCI fcsMarker s with
  | some r =>
    match takeDigits (dropPySpaces r) with
    | ([], _) => none
    | (ds, r2) => some (digitsToNat ds, r2)
  | none => none

/-- Pattern `(\d+)/100` at the current position (fallback pattern 1). -/
def matchBare100 (s : List Char) : Option (Nat × List Char) :=
  match takeDigits s with
  | ([], _) => none
  | (ds, r) =>
    match stripLitCI litSlash100 r with
    | some rest => some (digitsToNat ds, rest)
    | none => none

/-- Pattern `Final score:\s*(\d+)` at the current position (fallback pattern 2). -/
def matchFinalScoreLbl (s : List Char) : Option (Nat × List Char) :=
  match stripLitCI ("Final score:".toList) s with
  | some r =>
    match takeDigits (dropPySpaces r) with
    | ([], _) => none
    | (ds, r2) => some (digitsToNat ds, r2)
  | none => none

/-- Pattern `Score:\s*(\d+)` at the current position (fallback pattern 3). -/
def matchScoreLbl (s : List Char) : Option (Nat × List Char) :=
  match stripLitCI ("Score:".toList) s with
  | some r =>
    match takeDigits (dropPySpaces r) with
    | ([], _) => none
    | (ds, r2) => some (digitsToNat ds, r2)
  | none => none

/-- `re.findall` value list: non-overlapping left-to-right scan.  Every matcher used
here consumes at least one character per match, so fuel `length + 1` is exact. -/
def findAllAux (f : List Char → Option (Nat × List Char)) :
    Nat → List Char → List Nat
  | 0, _ => []
  | _ + 1, [] => []
  | fuel + 1, c :: r =>
    match f (c :: r) with
    | some (v, rest) => v :: findAllAux f fuel rest
    | none => findAllAux f fuel r

/-- All captured values of a `re.findall` call. -/
def findAllVals (f : List Char → Option (Nat × List Char)) (s : List Char) : List Nat :=
  findAllAux f (s.length + 1) s

/-! ### The four methods of `_extract_score_from_response` -/

/-- Method 1, the `calc_patterns` loop: the four calculation patterns tried in order,
first `re.search` hit wins. -/
def scoreMethod1 (c : List Char) : Option Nat :=
  match searchG matchEqSlash100 c with
  | some x => some x.1
  | none =>
    match searchG matchEqSpacedSlash100 c with
    | some x => some x.1
    | none =>
      match searchG matchCalcPat3 c with
      | some x => some x.1
      | none =>
        match searchG matchCalcPat4 c with
        | some x => some x.1
        | none => none

/-- Method 2, the `simple_patterns` loop: the three canonical-marker patterns tried
in order. -/
def scoreMethod2 (c : List Char) : Option Nat :=
  match searchG matchSimple1 c with
  | some x => some x.1
  | none =>
    match searchG matchSimple2 c with
    | some x => some x.1
    | none =>
      match searchG matchSimple3 c with
      | some x => some x.1
      | none => none

/-- The labeled lines searched inside the calculation section:
`<label>s?:\s*<sign>(\d+)` with `IGNORECASE` (an optional plural `s` before the
colon, then the sign character, then the captured amount). -/
def matchLabeledAmount (label : List Char) (sign : Char) (s : List Char) :
    Option (Nat × List Char) :=
  match stripLitCI label s with
  | none => none
  | some r =>
    let r1 :=
      match r with
      | 's' :: rr => rr
      | 'S' :: rr => rr
      | _ => r
    match r1 with
    | ':' :: r2 =>
      match dropPySpaces r2 with
      | c :: r3 =>
        if c = sign then
          match takeDigits r3 with
          | ([], _) => none
          | (ds, r4) => some (digitsToNat ds, r4)
        else none
      | [] => none
    | _ => none

/-- Group of `\*\*CALCULATION:\*\*(.*?)(?=\*\*FINAL|$)` at the current position. -/
def calcSectionAt (s : List Char) : Option (List Char) :=
  match stripLitCI ("**CALCULATION:**".toList) s with
  | some r => some (takeUntilStop ("**FINAL".toList) r)
  | none => none

/-- Method 3, `_extract_from_calculation_section`: locate the calculation section,
sum the labeled deductions found in it, add the labeled bonus, and return
`100 - deductions + bonuses`.  `none` only when no calculation section exists. -/
def extractFromCalculationSection (c : List Char) : Option Int :=
  match searchG calcSectionAt c with
  | none => none
  | some sec =>
    let skills : Int :=
      match searchG (matchLabeledAmount ("Skills Deduction".toList) '-') sec with
      | some x => (x.1 : Int)
      | none => 0
    let exper : Int :=
      match searchG (matchLabeledAmount ("Experience Deduction".toList) '-') sec with
      | some x => (x.1 : Int)
      | none => 0
    let educ : Int :=
      match searchG (matchLabeledAmount ("Education Deduction".toList) '-') sec with
      | some x => (x.1 : Int)
      | none => 0
    let bonus : Int :=
      match searchG (matchLabeledAmount ("Bonus Point".toList) '+') sec with
      | some x => (x.1 : Int)
      | none => 0
    some (100 - (skills + exper + educ) + bonus)

/-- Method 4, the `fallback_patterns` loop: for each pattern in order run
`re.findall` and, at the first pattern with any match, return the last match. -/
def scoreMethod4 (c : List Char) : Option Nat :=
  match (findAllVals matchBare100 c).getLast? with
  | some v => some v
  | none =>
    match (findAllVals matchFinalScoreLbl c).getLast? with
    | some v => some v
    | none =>
      match (findAllVals matchScoreLbl c).getLast? with
      | some v => some v
      | none => none

/-- `_extract_score_from_response` on a character list: methods 1-4 in order,
defaulting to 50. -/
def extractScoreFromResponseL (c : List Char) : Int :=
  match scoreMethod1 c with
  | some v => (v : Int)
  | none =>
    match scoreMethod2 c with
    | some v => (v : Int)
    | none =>
      match extractFromCalculationSection c with
      | some v => v
      | none =>
        match scoreMethod4 c with
        | some v => (v : Int)
        | none => 50

/-- `ResumeAnalyzer._extract_score_from_response`. -/
def extractScoreFromResponse (content : String) : Int :=
  extractScoreFromResponseL content.toList

/-! ### Data model: Python dicts, the bounded cache, requests -/

/-- A Python dict as it flows through the orchestrator: an insertion-ordered
association list.  Nested JSON values are abstracted to strings (the orchestrator
never inspects them). -/
abbrev PyDict := List (String × String)

/-- The key under which every failure marker is stored. -/
def errKey : String := "error"

/-- Python `"error" in d`. -/
def hasErrorKey (d : PyDict) : Bool :=
  d.any (fun p => p.1 == errKey)

/-- Python truthiness of a dict (`if cached_result:`): nonempty. -/
def pyDictTruthy (d : PyDict) : Bool :=
  !d.isEmpty

/-- The in-memory cache `self._cache`: a Python dict mapping string keys to parsed
records, in insertion order. -/
abbrev AnalyzerCache := List (String × PyDict)

/-- `self._cache_size_limit`, set to 100 in the constructor. -/
def cacheSizeLimit : Nat := 100

/-- `_cache_get`: `self._cache.get(key)`. -/
def cacheGet (c : AnalyzerCache) (k : String) : Option PyDict :=
  (c.find? (fun p => p.1 == k)).map (fun p => p.2)

/-- `_cache_set`: when the entry count has reached the limit, delete
`next(iter(self._cache))` — the earliest-inserted entry, the head of the
insertion order — then assign `self._cache[key] = value` (updating in place when
the key exists, appending otherwise). -/
def cacheSet (c : AnalyzerCache) (k : String) (v : PyDict) : AnalyzerCache :=
  let c1 := if cacheSizeLimit ≤ c.length then c.drop 1 else c
  if c1.any (fun p => p.1 == k) then
    c1.map (fun p => if p.1 == k then (k, v) else p)
  else c1 ++ [(k, v)]

/-- A request to the external generation client (`messages.create` arguments).
The sampling temperature is recorded in tenths to stay in integer arithmetic. -/
structure GenReq where
  model : String
  maxTokens : Nat
  temperatureTenths : Nat
  system : Option String
  prompt : String
deriving DecidableEq

/-- The external collaborators and environmental events of one run.

`hashFn` models Python `hash` (fixed within one process), `genAsync`/`genSync`
the asynchronous and blocking Anthropic clients (`Except.error` = the call
raised), `jsonParse` the `json.loads` of a response (`none` = `JSONDecodeError`),
`jsonDumps` the `json.dumps(-, indent=2)` used in the scoring prompt.

The `Exn` fields model failures of the concurrency machinery itself (event-loop
creation, `asyncio.wait_for` timeouts, thread joins, `asyncio.run`): a `true` /
`some msg` value means the corresponding `try:` block raised with that message.
They are inputs, not outputs: the theorems below quantify over all of them. -/
structure AnalyzerEnv where
  hashFn : String → Int
  genAsync : GenReq → Except String String
  genSync : GenReq → Except String String
  jsonParse : String → Option PyDict
  jsonDumps : PyDict → String
  concAsyncExn : Option String
  tier1Exn : Bool
  tier2Exn : Bool
  tier3Exn : Option String
  analyzeAsyncExn : Option String
  runExplainExn : Bool
  runAnalyzeExn : Bool
  runBatchExn : Bool

/-- `_get_cache_key` prefixed for resumes: `f"resume_{str(hash(text))}"`. -/
def resumeCacheKey (env : AnalyzerEnv) (t : String) : String :=
  "resume_" ++ toString (env.hashFn t)

/-- `_get_cache_key` prefixed for jobs: `f"job_{str(hash(text))}"`. -/
def jobCacheKey (env : AnalyzerEnv) (t : String) : String :=
  "job_" ++ toString (env.hashFn t)

/-- First part of the resume extraction prompt template (before the resume text). -/
def resumePromptP1 : String :=
  "Analyze the following resume text and extract key information in JSON format. Remove all markdown formatting.\n\n        Resume text:\n        "

/-- Second part of the resume extraction prompt template (after the resume text). -/
def resumePromptP2 : String :=
  "\n\n        Please return a JSON object with the following structure:\n        \x7b\n            \"skills\": [\"skill1\", \"skill2\", \"skill3\"],\n            \"experience\": [\n                \x7b\n                    \"role\": \"Job Title\",\n                    \"company\": \"Company Name\",\n                    \"duration\": \"Time period\",\n                    \"description\": \"Brief description\"\n                \x7d\n            ],\n            \"education\": [\n                \x7b\n                    \"degree\": \"Degree name\",\n                    \"institution\": \"School name\",\n                    \"year\": \"Graduation year\"\n                \x7d\n            ]\n        \x7d\n\n        Only return the JSON object, no additional text, no markdown formatting."

/-- The resume extraction prompt built in `extract_resume_data_async` (the sync
variant builds the identical template). -/
def resumePrompt (resumeText : String) : String :=
  resumePromptP1 ++ resumeText ++ resumePromptP2

/-- First part of the job extraction prompt template. -/
def jobPromptP1 : String :=
  "Analyze the following job description and extract key requirements in JSON format. Remove all markdown formatting.\n\n        Job description:\n        "

/-- Second part of the job extraction prompt template. -/
def jobPromptP2 : String :=
  "\n\n        Please return a JSON object with the following structure:\n        \x7b\n            \"required_skills\": [\"skill1\", \"skill2\", \"skill3\"],\n            \"preferred_skills\": [\"skill1\", \"skill2\"],\n            \"experience_required\": \"X years\",\n            \"education_required\": \"Degree requirement\",\n            \"responsibilities\": [\"responsibility1\", \"responsibility2\"]\n        \x7d\n\n        Only return the JSON object, no additional text."

/-- The job extraction prompt built in `extract_job_requirements_async`. -/
def jobPrompt (jobDescription : String) : String :=
  jobPromptP1 ++ jobDescription ++ jobPromptP2

/-- Scoring prompt, part before the dumped resume record. -/
def scorePromptP1 : String :=
  "You are a precise HR scoring system. Calculate a compatibility score from 1-100 using EXACTLY the formula below.\n        Be mathematically consistent - the same inputs should always produce the same score.\n\n        MANDATORY SCORING FORMULA (follow exactly):\n\n        1. BASE SCORE: Always start with 100 points\n\n        2. REQUIRED SKILLS SCORING:\n        For EACH required skill, evaluate if it\x27s:\n        - FULLY SATISFIED (0 deduction): Exact match OR equivalent (Python=Django/Flask, JavaScript=React/Node.js, Database=SQL/MySQL, Data Preprocessing=cleaning/quality)\n        - PARTIALLY SATISFIED (-7 points): Related skill or transferable experience \n        - NOT SATISFIED (-15 points): No relevant skills or experience found\n\n        Maximum deduction: -45 points (cap at 3 major missing skills)\n\n        3. EXPERIENCE SCORING:\n        Calculate experience gap:\n        - Meets or exceeds requirement: 0 deduction\n        - 75-99% of required: -10 points\n        - 50-74% of required: -20 points  \n        - Under 50% of required: -30 points\n        - Experience completely unrelated to role: additional -15 points\n        Maximum deduction: -45 points\n\n        4. EDUCATION SCORING:\n        - Meets requirement exactly: 0 deduction\n        - Related field or higher degree: -5 points\n        - Unrelated field: -10 points\n        - Missing required degree entirely: -20 points\n        Maximum deduction: -20 points\n\n        5. BONUS POINTS:\n        - Each preferred skill matched: +3 points\n        - Exceeds experience requirement significantly: +5 points\n        - Advanced degree when not required: +5 points\n        Maximum bonus: +15 points\n\n        FORMAT YOUR RESPONSE WITH DETAILED BREAKDOWN:\n\n        **SCORING BREAKDOWN:**\n\n        **BASE SCORE:** 100 points\n\n        **REQUIRED SKILLS ANALYSIS:**\n        [For each required skill, explain whether it\x27s fully satisfied, partially satisfied, or not satisfied, and the points deducted]\n\n        **EXPERIENCE ANALYSIS:**\n        [Compare candidate\x27s experience to requirements and explain deductions]\n\n        **EDUCATION ANALYSIS:**\n        [Compare candidate\x27s education to requirements and explain deductions]\n\n        **BONUS POINTS:**\n        [List any bonus points earned and why]\n\n        **CALCULATION:**\n        Base Score: 100\n        Skills Deductions: -X\n        Experience Deductions: -Y\n        Education Deductions: -Z\n        Bonus Points: +A\n        **FINAL COMPATIBILITY SCORE: [final_number]/100**\n\n        IMPORTANT: Make sure the final score in \"FINAL COMPATIBILITY SCORE\" exactly matches your calculation above.\n\n        Resume Data:\n        "

/-- Scoring prompt, part between the dumped resume record and the dumped job record. -/
def scorePromptP2 : String :=
  "\n\n        Job Requirements:\n        "

/-- The scoring system message passed to the client in both scoring variants. -/
def scoringSystemMessage : String :=
  "You are a precise mathematical scoring system. Always follow the exact formula provided. Be consistent - identical inputs must produce identical outputs. Provide detailed breakdowns showing your work. CRITICAL: Ensure your final score matches your calculation exactly."

/-! ### Structured Extractor -/

/-- The request issued by `extract_resume_data_async`
(haiku model, 1000 max tokens, temperature 0.1). -/
def resumeGenReqAsync (t : String) : GenReq :=
  ⟨"claude-3-5-haiku-20241022", 1000, 1, none, resumePrompt t⟩

/-- The request issued by `_extract_resume_data_sync`
(haiku model, 1500 max tokens, temperature 0.3). -/
def resumeGenReqSync (t : String) : GenReq :=
  ⟨"claude-3-5-haiku-20241022", 1500, 3, none, resumePrompt t⟩

/-- The request issued by `extract_job_requirements_async`. -/
def jobGenReqAsync (t : String) : GenReq :=
  ⟨"claude-3-5-haiku-20241022", 1000, 1, none, jobPrompt t⟩

/-- The request issued by `_extract_job_requirements_sync`. -/
def jobGenReqSync (t : String) : GenReq :=
  ⟨"claude-3-5-haiku-20241022", 1500, 3, none, jobPrompt t⟩

/-- The `ExtractionError` marker for resumes:
`{"error": "Failed to parse resume data"}`. -/
def parseFailedResume : PyDict :=
  [(errKey, "Failed to parse resume data")]

/-- The `ExtractionError` marker for jobs:
`{"error": "Failed to parse job requirements"}`. -/
def parseFailedJob : PyDict :=
  [(errKey, "Failed to parse job requirements")]

/-- Message prefix of every `ServiceError` marker. -/
def apiCallFailedMsg : String := "API call failed: "

/-- The `ServiceError` marker: `{"error": f"API call failed: {e}"}`. -/
def apiErrDict (e : String) : PyDict :=
  [(errKey, apiCallFailedMsg ++ e)]

/-- The cache-miss path of `extract_resume_data_async`: call the client, parse the
response, cache the parsed record; a parse failure yields the `ExtractionError`
marker, a raised client call the `ServiceError` marker. -/
def extractResumeDataAsyncMiss (env : AnalyzerEnv) (cache : AnalyzerCache) (t : String) :
    PyDict × AnalyzerCache × Nat :=
  match env.genAsync (resumeGenReqAsync t) with
  | Except.ok content =>
    match env.jsonParse content with
    | some parsedJson => (parsedJson, cacheSet cache (resumeCacheKey env t) parsedJson, 1)
    | none => (parseFailedResume, cache, 1)
  | Except.error e => (apiErrDict e, cache, 1)

/-- `extract_resume_data_async`: consult the cache (a falsy cached value does not
count as a hit), otherwise run the miss path.  The third component counts
generation-client calls performed (0 or 1). -/
def extractResumeDataAsync (env : AnalyzerEnv) (cache : AnalyzerCache) (t : String) :
    PyDict × AnalyzerCache × Nat :=
  match cacheGet cache (resumeCacheKey env t) with
  | some r => if pyDictTruthy r then (r, cache, 0) else extractResumeDataAsyncMiss env cache t
  | none => extractResumeDataAsyncMiss env cache t

/-- The cache-miss path of `extract_job_requirements_async`: call the client, parse the
response, cache the parsed record; a parse failure yields the `ExtractionError`
marker, a raised client call the `ServiceError` marker. -/
def extractJobRequirementsAsyncMiss (env : AnalyzerEnv) (cache : AnalyzerCache) (t : String) :
    PyDict × AnalyzerCache × Nat :=
  match env.genAsync (jobGenReqAsync t) with
  | Except.ok content =>
    match env.jsonParse content with
    | some parsedJson => (parsedJson, cacheSet cache (jobCacheKey env t) parsedJson, 1)
    | none => (parseFailedJob, cache, 1)
  | Except.error e => (apiErrDict e, cache, 1)

/-- `extract_job_requirements_async`. -/
def extractJobRequirementsAsync (env : AnalyzerEnv) (cache : AnalyzerCache) (t : String) :
    PyDict × AnalyzerCache × Nat :=
  match cacheGet cache (jobCacheKey env t) with
  | some r => if pyDictTruthy r then (r, cache, 0) else extractJobRequirementsAsyncMiss env cache t
  | none => extractJobRequirementsAsyncMiss env cache t

/-- The cache-miss path of `_extract_resume_data_sync`: call the client, parse the
response, cache the parsed record; a parse failure yields the `ExtractionError`
marker, a raised client call the `ServiceError` marker. -/
def extractResumeDataSyncMiss (env : AnalyzerEnv) (cache : AnalyzerCache) (t : String) :
    PyDict × AnalyzerCache × Nat :=
  match env.genSync (resumeGenReqSync t) with
  | Except.ok content =>
    match env.jsonParse content with
    | some parsedJson => (parsedJson, cacheSet cache (resumeCacheKey env t) parsedJson, 1)
    | none => (parseFailedResume, cache, 1)
  | Except.error e => (apiErrDict e, cache, 1)

/-- `_extract_resume_data_sync`: identical control flow with the blocking client. -/
def extractResumeDataSync (env : AnalyzerEnv) (cache : AnalyzerCache) (t : String) :
    PyDict × AnalyzerCache × Nat :=
  match cacheGet cache (resumeCacheKey env t) with
  | some r => if pyDictTruthy r then (r, cache, 0) else extractResumeDataSyncMiss env cache t
  | none => extractResumeDataSyncMiss env cache t

/-- The cache-miss path of `_extract_job_requirements_sync`: call the client, parse the
response, cache the parsed record; a parse failure yields the `ExtractionError`
marker, a raised client call the `ServiceError` marker. -/
def extractJobRequirementsSyncMiss (env : AnalyzerEnv) (cache : AnalyzerCache) (t : String) :
    PyDict × AnalyzerCache × Nat :=
  match env.genSync (jobGenReqSync t) with
  | Except.ok content =>
    match env.jsonParse content with
    | some parsedJson => (parsedJson, cacheSet cache (jobCacheKey env t) parsedJson, 1)
    | none => (parseFailedJob, cache, 1)
  | Except.error e => (apiErrDict e, cache, 1)

/-- `_extract_job_requirements_sync`. -/
def extractJobRequirementsSync (env : AnalyzerEnv) (cache : AnalyzerCache) (t : String) :
    PyDict × AnalyzerCache × Nat :=
  match cacheGet cache (jobCacheKey env t) with
  | some r => if pyDictTruthy r then (r, cache, 0) else extractJobRequirementsSyncMiss env cache t
  | none => extractJobRequirementsSyncMiss env cache t

/-! ### Concurrent Extraction Coordinator -/

/-- Result of a coordinator call: either both records, or an error dict
(`msg` the value under `"error"`, `details` the value under `"details"` if any). -/
inductive ConcResult where
  | ok (resumeData jobRequirements : PyDict)
  | err (msg : String) (details : Option PyDict)
deriving DecidableEq

/-- `{"error": "Failed to extract resume data", ...}` marker message. -/
def failedResumeMsg : String := "Failed to extract resume data"

/-- `{"error": "Failed to extract job requirements", ...}` marker message. -/
def failedJobMsg : String := "Failed to extract job requirements"

/-- Message prefix of `{"error": f"Concurrent extraction failed: {e}"}`. -/
def concFailedMsg : String := "Concurrent extraction failed: "

/-- `extract_data_concurrent_async`: gather both extractions (sequentialised
resume-first here), then check the resume record and then the job record for an
embedded error.  Its own `except` clause (machinery failure while gathering,
modelled by `concAsyncExn`) yields the `Concurrent extraction failed` dict. -/
def extractDataConcurrentAsync (env : AnalyzerEnv) (cache : AnalyzerCache)
    (rt jt : String) : ConcResult × AnalyzerCache :=
  match env.concAsyncExn with
  | some m => (ConcResult.err (concFailedMsg ++ m) none, cache)
  | none =>
    let res := extractResumeDataAsync env cache rt
    let job := extractJobRequirementsAsync env res.2.1 jt
    if hasErrorKey res.1 then (ConcResult.err failedResumeMsg (some res.1), job.2.1)
    else if hasErrorKey job.1 then (ConcResult.err failedJobMsg (some job.1), job.2.1)
    else (ConcResult.ok res.1 job.1, job.2.1)

/-- `_extract_data_concurrent_sync` (tier 3): the two blocking extractions on a
worker pool; its `except` clause (executor machinery failure, `tier3Exn`) yields
the `Concurrent extraction failed` dict. -/
def extractDataConcurrentSyncTier (env : AnalyzerEnv) (cache : AnalyzerCache)
    (rt jt : String) : ConcResult × AnalyzerCache :=
  match env.tier3Exn with
  | some m => (ConcResult.err (concFailedMsg ++ m) none, cache)
  | none =>
    let res := extractResumeDataSync env cache rt
    let job := extractJobRequirementsSync env res.2.1 jt
    if hasErrorKey res.1 then (ConcResult.err failedResumeMsg (some res.1), job.2.1)
    else if hasErrorKey job.1 then (ConcResult.err failedJobMsg (some job.1), job.2.1)
    else (ConcResult.ok res.1 job.1, job.2.1)

/-- Tier 2 of `extract_data_concurrent` (threads with per-thread event loops
running the async extractors), falling through to tier 3 when its machinery
(`tier2Exn`) raises or times out.  The returned list records which tiers ran. -/
def extractTier2 (env : AnalyzerEnv) (cache : AnalyzerCache) (rt jt : String) :
    ConcResult × AnalyzerCache × List Nat :=
  if env.tier2Exn then
    let r := extractDataConcurrentSyncTier env cache rt jt
    (r.1, r.2, [1, 2, 3])
  else
    let res := extractResumeDataAsync env cache rt
    let job := extractJobRequirementsAsync env res.2.1 jt
    if hasErrorKey res.1 then (ConcResult.err failedResumeMsg (some res.1), job.2.1, [1, 2])
    else if hasErrorKey job.1 then (ConcResult.err failedJobMsg (some job.1), job.2.1, [1, 2])
    else (ConcResult.ok res.1 job.1, job.2.1, [1, 2])

/-- `extract_data_concurrent` (`ExtractBoth`): tier 1 runs
`extract_data_concurrent_async` under a fresh event loop with a 25s timeout;
only a raise/timeout of that machinery (`tier1Exn`) falls through to tier 2.
Whatever value tier 1 produces — including an error dict — is returned directly. -/
def extractDataConcurrent (env : AnalyzerEnv) (cache : AnalyzerCache) (rt jt : String) :
    ConcResult × AnalyzerCache × List Nat :=
  if env.tier1Exn then extractTier2 env cache rt jt
  else
    let r := extractDataConcurrentAsync env cache rt jt
    (r.1, r.2, [1])

/-! ### Score Recoverer -/

/-- The dict returned by the scoring functions:
`{"explanation": ..., "score": ...}` plus an optional `"error"` entry. -/
structure ScoreResult where
  explanation : String
  score : Int
  error : Option String
deriving DecidableEq

/-- Fixed explanation of a failed scoring call. -/
def failedExplanationMsg : String := "Failed to generate detailed explanation"

/-- The scoring prompt with both records dumped into it. -/
def scorePrompt (env : AnalyzerEnv) (resumeData jobRequirements : PyDict) : String :=
  scorePromptP1 ++ env.jsonDumps resumeData ++ scorePromptP2 ++ env.jsonDumps jobRequirements

/-- The request issued by `explain_match_score_async`
(sonnet model, 2000 max tokens, temperature 0.0, scoring system message). -/
def scoreGenReqAsync (env : AnalyzerEnv) (resumeData jobRequirements : PyDict) : GenReq :=
  ⟨"claude-3-5-sonnet-20241022", 2000, 0, some scoringSystemMessage,
    scorePrompt env resumeData jobRequirements⟩

/-- The request issued by `_explain_match_score_sync` (3000 max tokens). -/
def scoreGenReqSync (env : AnalyzerEnv) (resumeData jobRequirements : PyDict) : GenReq :=
  ⟨"claude-3-5-sonnet-20241022", 3000, 0, some scoringSystemMessage,
    scorePrompt env resumeData jobRequirements⟩

/-- `explain_match_score_async`: one scoring call; on success the recovered score
clamped by `max(15, min(95, final_score))`; on a raised client call the fixed
explanation, score 0 and an error entry. -/
def explainMatchScoreAsync (env : AnalyzerEnv) (resumeData jobRequirements : PyDict) :
    ScoreResult :=
  match env.genAsync (scoreGenReqAsync env resumeData jobRequirements) with
  | Except.ok content =>
    ⟨content, max 15 (min 95 (extractScoreFromResponse content)), none⟩
  | Except.error e => ⟨failedExplanationMsg, 0, some (apiCallFailedMsg ++ e)⟩

/-- `_explain_match_score_sync`: the blocking variant, same recovery and clamp. -/
def explainMatchScoreSync (env : AnalyzerEnv) (resumeData jobRequirements : PyDict) :
    ScoreResult :=
  match env.genSync (scoreGenReqSync env resumeData jobRequirements) with
  | Except.ok content =>
    ⟨content, max 15 (min 95 (extractScoreFromResponse content)), none⟩
  | Except.error e => ⟨failedExplanationMsg, 0, some (apiCallFailedMsg ++ e)⟩

/-- `explain_match_score`: force the async variant through `asyncio.run`; if that
machinery raises (`runExplainExn`), fall back to the blocking variant. -/
def explainMatchScore (env : AnalyzerEnv) (resumeData jobRequirements : PyDict) :
    ScoreResult :=
  if env.runExplainExn then explainMatchScoreSync env resumeData jobRequirements
  else explainMatchScoreAsync env resumeData jobRequirements

/-! ### `_parse_explanation_breakdown` -/

/-- The breakdown dict skeleton filled by `_parse_explanation_breakdown`. -/
structure ScoreBreakdown where
  baseScore : Int
  skillsAnalysis : String
  experienceAnalysis : String
  educationAnalysis : String
  bonusPoints : String
  finalCalculation : String
deriving DecidableEq

/-- One section pattern `<marker>(.*?)(?=<stop>|$)` with `DOTALL | IGNORECASE`,
searched in the explanation and stripped; `""` when the marker is absent. -/
def sectionText (marker stop : String) (c : List Char) : String :=
  match searchG (fun s => (stripLitCI marker.toList s).map (takeUntilStop stop.toList)) c with
  | some g => String.mk (pyStrip g)
  | none => ""

/-- `_parse_explanation_breakdown`: extract the five labeled sections. -/
def parseExplanationBreakdown (explanation : String) : ScoreBreakdown :=
  let c := explanation.toList
  ⟨100,
    sectionText ("REQUIRED SKILLS ANALYSIS:") ("**EXPERIENCE ANALYSIS:") c,
    sectionText ("EXPERIENCE ANALYSIS:") ("**EDUCATION ANALYSIS:") c,
    sectionText ("EDUCATION ANALYSIS:") ("**BONUS POINTS:") c,
    sectionText ("BONUS POINTS:") ("**CALCULATION:") c,
    sectionText ("CALCULATION:") ("**FINAL COMPATIBILITY SCORE:") c⟩

/-! ### Analysis Orchestrator and Batch Runner -/

/-- Result of one full analysis: either the complete result dict of
`analyze_resume_job_match_fast` or an error dict passed through / produced. -/
inductive AnalysisResult where
  | full (resumeData jobRequirements : PyDict) (compatibilityScore : Int)
      (detailedExplanation : String) (breakdown : ScoreBreakdown)
      (error : Option String)
  | err (msg : String) (details : Option PyDict)
deriving DecidableEq

/-- Message prefix of `{"error": f"Analysis failed: {e}"}`. -/
def analysisFailedMsg : String := "Analysis failed: "

/-- `analyze_resume_job_match_fast_async`: concurrent extraction, then async
scoring; an extraction error dict is returned as-is; its own `except` clause
(machinery failure, `analyzeAsyncExn`) yields the `Analysis failed` dict. -/
def analyzeResumeJobMatchFastAsync (env : AnalyzerEnv) (cache : AnalyzerCache)
    (rt jt : String) : AnalysisResult × AnalyzerCache :=
  match env.analyzeAsyncExn with
  | some m => (AnalysisResult.err (analysisFailedMsg ++ m) none, cache)
  | none =>
    let ex := extractDataConcurrentAsync env cache rt jt
    match ex.1 with
    | ConcResult.err m d => (AnalysisResult.err m d, ex.2)
    | ConcResult.ok rd jr =>
      let an := explainMatchScoreAsync env rd jr
      (AnalysisResult.full rd jr an.score an.explanation
        (parseExplanationBreakdown an.explanation) an.error, ex.2)

/-- `_analyze_resume_job_match_fast_sync`: tiered extraction, then the scoring
wrapper. -/
def analyzeResumeJobMatchFastSync (env : AnalyzerEnv) (cache : AnalyzerCache)
    (rt jt : String) : AnalysisResult × AnalyzerCache :=
  let ex := extractDataConcurrent env cache rt jt
  match ex.1 with
  | ConcResult.err m d => (AnalysisResult.err m d, ex.2.1)
  | ConcResult.ok rd jr =>
    let an := explainMatchScore env rd jr
    (AnalysisResult.full rd jr an.score an.explanation
      (parseExplanationBreakdown an.explanation) an.error, ex.2.1)

/-- `analyze_resume_job_match_fast` (`Analyze`): force the fully async workflow;
if `asyncio.run` raises (`runAnalyzeExn`), fall back to the sync workflow. -/
def analyzeResumeJobMatchFast (env : AnalyzerEnv) (cache : AnalyzerCache)
    (rt jt : String) : AnalysisResult × AnalyzerCache :=
  if env.runAnalyzeExn then analyzeResumeJobMatchFastSync env cache rt jt
  else analyzeResumeJobMatchFastAsync env cache rt jt

/-- `analyze_multiple_resumes_async`: one async analysis per pair (gathered;
sequentialised here in submission order). -/
def analyzeBatchAsync (env : AnalyzerEnv) :
    AnalyzerCache → List (String × String) → List AnalysisResult × AnalyzerCache
  | cache, [] => ([], cache)
  | cache, p :: rest =>
    let r := analyzeResumeJobMatchFastAsync env cache p.1 p.2
    let rs := analyzeBatchAsync env r.2 rest
    (r.1 :: rs.1, rs.2)

/-- The threaded fallback of `analyze_multiple_resumes`: one sync analysis per
pair on a bounded pool (results collected as completed; modelled in submission
order, which the settled claims do not depend on). -/
def analyzeBatchSync (env : AnalyzerEnv) :
    AnalyzerCache → List (String × String) → List AnalysisResult × AnalyzerCache
  | cache, [] => ([], cache)
  | cache, p :: rest =>
    let r := analyzeResumeJobMatchFastSync env cache p.1 p.2
    let rs := analyzeBatchSync env r.2 rest
    (r.1 :: rs.1, rs.2)

/-- `analyze_multiple_resumes` (`AnalyzeMany`): force async batch processing;
if `asyncio.run` raises (`runBatchExn`), fall back to the threaded batch. -/
def analyzeMultipleResumes (env : AnalyzerEnv) (cache : AnalyzerCache)
    (pairs : List (String × String)) : List AnalysisResult × AnalyzerCache :=
  if env.runBatchExn then analyzeBatchSync env cache pairs
  else analyzeBatchAsync env cache pairs

/-- Structural completeness of a delivered analysis result: a full result, or an
error dict whose marker message is nonempty. -/
def AnalysisResult.complete : AnalysisResult → Prop
  | AnalysisResult.full _ _ _ _ _ _ => True
  | AnalysisResult.err m _ => m ≠ ""

/-! ### Concrete environments and inputs used by the closed theorems below -/

/-- A concrete structured record, as `json.loads` could produce it. -/
def sampleResumeRecord : PyDict :=
  [("skills", "Python, SQL")]

/-- A healthy environment: every client call answers, every answer parses to a
truthy record, no concurrency machinery fails. -/
def okServiceEnv : AnalyzerEnv :=
  { hashFn := fun _ => 0
  , genAsync := fun _ => Except.ok ("response text")
  , genSync := fun _ => Except.ok ("response text")
  , jsonParse := fun _ => some sampleResumeRecord
  , jsonDumps := fun _ => "dumped"
  , concAsyncExn := none
  , tier1Exn := false
  , tier2Exn := false
  , tier3Exn := none
  , analyzeAsyncExn := none
  , runExplainExn := false
  , runAnalyzeExn := false
  , runBatchExn := false }

/-- An environment whose generation client is unreachable: every call, on either
client, raises a connection error.  The concurrency machinery itself is healthy. -/
def unreachableEnv : AnalyzerEnv :=
  { okServiceEnv with
      genAsync := fun _ => Except.error ("Connection error")
    , genSync := fun _ => Except.error ("Connection error") }

/-- An environment where the service answers but never usably: every response
fails to parse (`json.loads` raises). -/
def parseFailEnv : AnalyzerEnv :=
  { okServiceEnv with jsonParse := fun _ => none }

/-- An environment where every response parses to the empty record `{}` —
valid JSON, a falsy dict. -/
def emptyRecordEnv : AnalyzerEnv :=
  { okServiceEnv with jsonParse := fun _ => some [] }

/-- The score text of the spec scenario: a `**CALCULATION:**` breakdown line
followed by `**FINAL SCORE: 79/100**`. -/
def c5ScoreText : String :=
  "...\n**CALCULATION:** Base 100, Skills -14, Experience -10, Education 0, Bonus +3\n**FINAL SCORE: 79/100**"

/-- An environment whose scoring response is the spec scenario text. -/
def c5Env : AnalyzerEnv :=
  { okServiceEnv with genAsync := fun _ => Except.ok c5ScoreText }

/-- A 100-entry cache (at capacity), keys `"0"` … `"99"` in insertion order. -/
def witnessCache100 : AnalyzerCache :=
  (List.range 100).map (fun i => (Nat.repr i, sampleResumeRecord))

/-- A cache holding a falsy (empty) record under the key of text `"t"` in
`okServiceEnv`. -/
def falsyEntryCache : AnalyzerCache :=
  [("resume_0", [])]

/-- A cache holding a truthy record under the key of text `"t"` in `okServiceEnv`. -/
def truthyEntryCache : AnalyzerCache :=
  [("resume_0", sampleResumeRecord)]

/-! ### Helper lemmas -/

theorem strAppendNeEmpty (s t : String) (h : s ≠ "") : s ++ t ≠ "" := by
  intro hEq
  apply h
  have hd := congrArg String.data hEq
  rw [String.data_append] at hd
  have hs : s.data = [] := (List.append_eq_nil.mp hd).1
  cases s with
  | mk d =>
    simp only [String.data] at hs
    rw [hs]

theorem neOfHeadNe (a b : String) (c1 c2 : Char) (h1 : a.data.head? = some c1)
    (h2 : b.data.head? = some c2) (hne : c1 ≠ c2) (m : String) : a ≠ b ++ m := by
  intro hEq
  apply hne
  have hd := congrArg (fun s : String => s.data.head?) hEq
  simp only [String.data_append] at hd
  rw [h1] at hd
  cases hb : b.data with
  | nil => rw [hb] at h2; simp at h2
  | cons x xs =>
    rw [hb] at h2 hd
    simp only [List.cons_append, List.head?] at hd h2
    injection hd with hde
    injection h2 with h2e
    rw [hde, h2e]

theorem cacheFindNone {c : AnalyzerCache} {k : String} (h : cacheGet c k = none) :
    c.find? (fun p => p.1 == k) = none := by
  unfold cacheGet at h
  cases hf : c.find? (fun p => p.1 == k) with
  | none => rfl
  | some x => rw [hf] at h; simp at h

theorem cacheGetCacheSetFresh (c : AnalyzerCache) (k : String) (v : PyDict)
    (h : cacheGet c k = none) : cacheGet (cacheSet c k v) k = some v := by
  have hf := cacheFindNone h
  have hall : ∀ p ∈ c, ¬((fun p : String × PyDict => p.1 == k) p = true) :=
    List.find?_eq_none.mp hf
  unfold cacheSet
  by_cases hlen : cacheSizeLimit ≤ c.length
  · rw [if_pos hlen]
    have hall1 : ∀ p ∈ c.drop 1, ¬((fun p : String × PyDict => p.1 == k) p = true) :=
      fun p hp => hall p (List.drop_subset 1 c hp)
    have hany : (c.drop 1).any (fun p => p.1 == k) = false := by
      rw [Bool.eq_false_iff]
      intro hx
      obtain ⟨p, hp, hpk⟩ := List.any_eq_true.mp hx
      exact hall1 p hp hpk
    rw [if_neg (by rw [hany]; exact Bool.false_ne_true)]
    unfold cacheGet
    rw [List.find?_append, List.find?_eq_none.mpr hall1]
    simp [List.find?]
  · rw [if_neg hlen]
    have hany : c.any (fun p => p.1 == k) = false := by
      rw [Bool.eq_false_iff]
      intro hx
      obtain ⟨p, hp, hpk⟩ := List.any_eq_true.mp hx
      exact hall p hp hpk
    rw [if_neg (by rw [hany]; exact Bool.false_ne_true)]
    unfold cacheGet
    rw [List.find?_append, List.find?_eq_none.mpr hall]
    simp [List.find?]

/-- Claim C4 (amended): `_extract_score_from_response` tries its strategies in the
fixed order — (1) the arithmetic-closure calculation patterns, (2) the canonical
final-score marker patterns, (3) arithmetic reconstruction from the labeled
calculation section, (4) the fallback battery taking the last `re.findall` match,
which tries the bare `N/100` pattern and then also the labels `Final score: N`
and `Score: N` — returning the first strategy value that matches, and returning
the fixed neutral default 50 (without raising) only when no strategy, the two
extra fallback labels included, matches. -/
theorem claim4_strategy_order (content : String) :
    (∀ v : Nat, scoreMethod1 content.toList = some v →
      extractScoreFromResponse content = (v : Int))
    ∧ (scoreMethod1 content.toList = none → ∀ v : Nat,
      scoreMethod2 content.toList = some v →
      extractScoreFromResponse content = (v : Int))
    ∧ (scoreMethod1 content.toList = none → scoreMethod2 content.toList = none →
      ∀ v : Int, extractFromCalculationSection content.toList = some v →
      extractScoreFromResponse content = v)
    ∧ (scoreMethod1 content.toList = none → scoreMethod2 content.toList = none →
      extractFromCalculationSection content.toList = none → ∀ v : Nat,
      scoreMethod4 content.toList = some v →
      extractScoreFromResponse content = (v : Int))
    ∧ (scoreMethod1 content.toList = none → scoreMethod2 content.toList = none →
      extractFromCalculationSection content.toList = none →
      scoreMethod4 content.toList = none →
      extractScoreFromResponse content = 50) := by
  unfold extractScoreFromResponse extractScoreFromResponseL
  refine ⟨?_, ?_, ?_, ?_, ?_⟩
  · intro v h; rw [h]
  · intro h1 v h2; rw [h1, h2]
  · intro h1 h2 v h3; rw [h1, h2, h3]
  · intro h1 h2 h3 v h4; rw [h1, h2, h3, h4]
  · intro h1 h2 h3 h4; rw [h1, h2, h3, h4]

/-- Witness for C4 (amended): on a text with no recognizable pattern at all, the
default 50 is returned. -/
theorem claim4_strategy_order_witness :
    extractScoreFromResponse ("no recognizable pattern") = 50 :=
  (claim4_strategy_order ("no recognizable pattern")).2.2.2.2 rfl rfl rfl rfl

/-- Counterexample to C4 as stated: the text `Score: 42` matches none of the four
strategies listed by the claim (no `=`-closure, no canonical marker, no
calculation section, no `N/100` occurrence), yet the code returns 42 — via the
`Score:` fallback label — rather than the claimed default 50. -/
theorem claim4_counterexample :
    extractScoreFromResponse ("Score: 42") = 42 ∧ ((42 : Int) ≠ 50) :=
  ⟨rfl, by decide⟩

/-- Counterexample to C5 as stated: on the spec scenario text, score recovery
returns 100, not 79.  The `**CALCULATION:**` header matches, so strategy 3 fires,
but none of its labeled deduction/bonus lines (`Skills Deductions: -N`, …) match
the free-form breakdown `Base 100, Skills -14, …`, leaving the reconstructed
score at the base value 100; the `79/100` fallback is never reached. -/
theorem claim5_counterexample :
    extractScoreFromResponse c5ScoreText = 100 ∧ ((100 : Int) ≠ 79) :=
  ⟨rfl, by decide⟩

/-- Claim C5 (amended): on the spec scenario text, score recovery returns 100
(the calculation-section strategy matches the header but parses no labeled
deduction or bonus line, yielding the base value), and the `ScoreResult` built
from such a response carries the clamped score 95. -/
theorem claim5_amended (env : AnalyzerEnv) (resumeData jobRequirements : PyDict)
    (h : env.genAsync (scoreGenReqAsync env resumeData jobRequirements)
      = Except.ok c5ScoreText) :
    extractScoreFromResponse c5ScoreText = 100
    ∧ (explainMatchScoreAsync env resumeData jobRequirements).score = 95 := by
  constructor
  · rfl
  · unfold explainMatchScoreAsync
    rw [h]
    decide

/-- Witness for C5 (amended) in the concrete environment whose scoring response
is the scenario text. -/
theorem claim5_amended_witness :
    extractScoreFromResponse c5ScoreText = 100
    ∧ (explainMatchScoreAsync c5Env sampleResumeRecord sampleResumeRecord).score = 95 :=
  claim5_amended c5Env sampleResumeRecord sampleResumeRecord rfl

/-- Counterexample to C1 as stated: when the scoring call raises (service
unreachable), the returned `ScoreResult` carries an error marker and the score 0,
which is outside the claimed range [15, 95]. -/
theorem claim1_counterexample :
    (explainMatchScoreAsync unreachableEnv sampleResumeRecord sampleResumeRecord).error
      = some (apiCallFailedMsg ++ "Connection error")
    ∧ (explainMatchScoreAsync unreachableEnv sampleResumeRecord sampleResumeRecord).score = 0
    ∧ ¬(15 ≤ (explainMatchScoreAsync unreachableEnv sampleResumeRecord sampleResumeRecord).score) :=
  ⟨rfl, rfl, by decide⟩

/-- Claim C1 (amended): every `ScoreResult` produced by `explain_match_score_async`
or `_explain_match_score_sync` without an error marker carries a score clamped
into [15, 95], whichever recovery strategy fired (the fixed default included);
a result that carries an error marker instead carries the score 0. -/
theorem claim1_amended (env : AnalyzerEnv) (resumeData jobRequirements : PyDict) :
    ((explainMatchScoreAsync env resumeData jobRequirements).error = none →
      15 ≤ (explainMatchScoreAsync env resumeData jobRequirements).score
      ∧ (explainMatchScoreAsync env resumeData jobRequirements).score ≤ 95)
    ∧ ((explainMatchScoreSync env resumeData jobRequirements).error = none →
      15 ≤ (explainMatchScoreSync env resumeData jobRequirements).score
      ∧ (explainMatchScoreSync env resumeData jobRequirements).score ≤ 95)
    ∧ (∀ m, (explainMatchScoreAsync env resumeData jobRequirements).error = some m →
      (explainMatchScoreAsync env resumeData jobRequirements).score = 0)
    ∧ (∀ m, (explainMatchScoreSync env resumeData jobRequirements).error = some m →
      (explainMatchScoreSync env resumeData jobRequirements).score = 0) := by
  unfold explainMatchScoreAsync explainMatchScoreSync
  cases ha : env.genAsync (scoreGenReqAsync env resumeData jobRequirements) with
  | ok content =>
    cases hs : env.genSync (scoreGenReqSync env resumeData jobRequirements) with
    | ok content2 =>
      refine ⟨fun _ => ⟨le_max_left _ _, max_le (by decide) (min_le_left _ _)⟩,
        fun _ => ⟨le_max_left _ _, max_le (by decide) (min_le_left _ _)⟩, ?_, ?_⟩
      · intro m hm; simp at hm
      · intro m hm; simp at hm
    | error e =>
      refine ⟨fun _ => ⟨le_max_left _ _, max_le (by decide) (min_le_left _ _)⟩, ?_, ?_, ?_⟩
      · intro hm; simp at hm
      · intro m hm; simp at hm
      · intro m hm; rfl
  | error e =>
    cases hs : env.genSync (scoreGenReqSync env resumeData jobRequirements) with
    | ok content2 =>
      refine ⟨?_, fun _ => ⟨le_max_left _ _, max_le (by decide) (min_le_left _ _)⟩, ?_, ?_⟩
      · intro hm; simp at hm
      · intro m hm; rfl
      · intro m hm; simp at hm
    | error e2 =>
      refine ⟨?_, ?_, ?_, ?_⟩
      · intro hm; simp at hm
      · intro hm; simp at hm
      · intro m hm; rfl
      · intro m hm; rfl

/-- Witness for C1 (amended): a healthy scoring call lands in [15, 95]; an
unreachable service yields score 0. -/
theorem claim1_amended_witness :
    (15 ≤ (explainMatchScoreAsync okServiceEnv sampleResumeRecord sampleResumeRecord).score
      ∧ (explainMatchScoreAsync okServiceEnv sampleResumeRecord sampleResumeRecord).score ≤ 95)
    ∧ (explainMatchScoreAsync unreachableEnv sampleResumeRecord sampleResumeRecord).score = 0 :=
  ⟨(claim1_amended okServiceEnv sampleResumeRecord sampleResumeRecord).1 rfl,
    (claim1_amended unreachableEnv sampleResumeRecord sampleResumeRecord).2.2.1
      (apiCallFailedMsg ++ "Connection error") rfl⟩

/-- Claim C6: on a cache holding exactly the capacity (100) of entries, `_cache_set`
with a fresh key evicts exactly the least-recently-inserted entry (the head of the
insertion order), retains the other 99 in order, and appends the new entry, so the
entry count remains 100. -/
theorem claim6_eviction (c : AnalyzerCache) (k : String) (v : PyDict)
    (h1 : c.length = 100) (h2 : ∀ p ∈ c, p.1 ≠ k) :
    cacheSet c k v = c.drop 1 ++ [(k, v)] ∧ (cacheSet c k v).length = 100 := by
  have hlen : cacheSizeLimit ≤ c.length := by rw [h1]; exact Nat.le_refl 100
  have hany : (c.drop 1).any (fun p => p.1 == k) = false := by
    rw [Bool.eq_false_iff]
    intro hx
    obtain ⟨p, hp, hpk⟩ := List.any_eq_true.mp hx
    exact h2 p (List.drop_subset 1 c hp) (by simpa using hpk)
  have heq : cacheSet c k v = c.drop 1 ++ [(k, v)] := by
    unfold cacheSet
    rw [if_pos hlen, if_neg (by rw [hany]; exact Bool.false_ne_true)]
  refine ⟨heq, ?_⟩
  rw [heq]
  simp [List.length_append, List.length_drop, h1]

/-- Witness for C6: the concrete 100-entry cache; inserting a 101st entry under a
fresh key keeps the count at 100 and the result is the tail plus the new entry. -/
theorem claim6_eviction_witness :
    cacheSet witnessCache100 ("newkey") sampleResumeRecord
      = witnessCache100.drop 1 ++ [(("newkey" : String), sampleResumeRecord)]
    ∧ (cacheSet witnessCache100 ("newkey") sampleResumeRecord).length = 100 :=
  claim6_eviction witnessCache100 ("newkey") sampleResumeRecord (by decide) (by decide)

/-- Counterexample to C7 as stated: when the response parses to the empty record,
the first call parses and caches it — yet the second call with identical text
still performs a generation-client call (the falsy cached value is not treated
as a hit), so the pair of calls performs two client calls, not one. -/
theorem claim7_counterexample :
    (extractResumeDataAsync emptyRecordEnv [] ("t")).1 = []
    ∧ (extractResumeDataAsync emptyRecordEnv [] ("t")).2.2 = 1
    ∧ cacheGet (extractResumeDataAsync emptyRecordEnv [] ("t")).2.1
        (resumeCacheKey emptyRecordEnv ("t")) = some []
    ∧ (extractResumeDataAsync emptyRecordEnv
        (extractResumeDataAsync emptyRecordEnv [] ("t")).2.1 ("t")).2.2 = 1 :=
  ⟨rfl, rfl, rfl, rfl⟩

/-- Claim C7 (amended): with a cache not holding the key of text `t`, and a first
`extract_resume_data_async` call that parses its response to a truthy (nonempty)
record, the first call performs exactly one generation-client call and caches the
record; a second call with the identical text is then served from the cache —
zero generation-client calls — and returns the identical record with the cache
unchanged. -/
theorem claim7_cache_second_call (env : AnalyzerEnv) (c0 : AnalyzerCache)
    (t content : String) (r : PyDict)
    (hmiss : cacheGet c0 (resumeCacheKey env t) = none)
    (hgen : env.genAsync (resumeGenReqAsync t) = Except.ok content)
    (hparse : env.jsonParse content = some r)
    (htruthy : r ≠ []) :
    extractResumeDataAsync env c0 t = (r, cacheSet c0 (resumeCacheKey env t) r, 1)
    ∧ extractResumeDataAsync env (cacheSet c0 (resumeCacheKey env t) r) t
      = (r, cacheSet c0 (resumeCacheKey env t) r, 0) := by
  have hmissPath : extractResumeDataAsyncMiss env c0 t
      = (r, cacheSet c0 (resumeCacheKey env t) r, 1) := by
    unfold extractResumeDataAsyncMiss
    simp only [hgen, hparse]
  have htr : pyDictTruthy r = true := by
    unfold pyDictTruthy
    cases r with
    | nil => exact absurd rfl htruthy
    | cons a l => rfl
  constructor
  · unfold extractResumeDataAsync
    rw [hmiss]
    exact hmissPath
  · unfold extractResumeDataAsync
    rw [cacheGetCacheSetFresh c0 (resumeCacheKey env t) r hmiss]
    simp [htr]

/-- Witness for C7: in the healthy environment from an empty cache, the first
call is one network call, the second is a pure cache hit with the same record. -/
theorem claim7_cache_second_call_witness :
    extractResumeDataAsync okServiceEnv [] ("some resume text")
      = (sampleResumeRecord,
          cacheSet [] (resumeCacheKey okServiceEnv ("some resume text")) sampleResumeRecord, 1)
    ∧ extractResumeDataAsync okServiceEnv
        (cacheSet [] (resumeCacheKey okServiceEnv ("some resume text")) sampleResumeRecord)
        ("some resume text")
      = (sampleResumeRecord,
          cacheSet [] (resumeCacheKey okServiceEnv ("some resume text")) sampleResumeRecord, 0) :=
  claim7_cache_second_call okServiceEnv [] ("some resume text") ("response text")
    sampleResumeRecord rfl rfl rfl (by decide)

theorem extractResumeMissCallsOne (env : AnalyzerEnv) (c : AnalyzerCache) (t : String) :
    (extractResumeDataAsyncMiss env c t).2.2 = 1 := by
  unfold extractResumeDataAsyncMiss
  split
  · split
    · rfl
    · rfl
  · rfl

/-- Claim C9: on a cache miss, a parse failure of a delivered response yields the
`ExtractionError` marker, a raised generation call yields the `ServiceError`
marker, and the two markers are distinguishable values for every possible
client error message. -/
theorem claim9_error_taxonomy (env : AnalyzerEnv) (c : AnalyzerCache)
    (t content e : String)
    (hmiss : cacheGet c (resumeCacheKey env t) = none) :
    (env.genAsync (resumeGenReqAsync t) = Except.ok content →
      env.jsonParse content = none →
      (extractResumeDataAsync env c t).1 = parseFailedResume)
    ∧ (env.genAsync (resumeGenReqAsync t) = Except.error e →
      (extractResumeDataAsync env c t).1 = apiErrDict e)
    ∧ (∀ m, parseFailedResume ≠ apiErrDict m) := by
  refine ⟨?_, ?_, ?_⟩
  · intro hgen hparse
    unfold extractResumeDataAsync
    rw [hmiss]
    unfold extractResumeDataAsyncMiss
    simp only [hgen, hparse]
  · intro hgen
    unfold extractResumeDataAsync
    rw [hmiss]
    unfold extractResumeDataAsyncMiss
    simp only [hgen]
  · intro m h
    have hs : ("Failed to parse resume data" : String) = apiCallFailedMsg ++ m := by
      simpa [parseFailedResume, apiErrDict] using h
    exact absurd hs
      (neOfHeadNe ("Failed to parse resume data") apiCallFailedMsg 'F' 'A' rfl rfl
        (by decide) m)

/-- Witness for C9: in the concrete parse-failure and unreachable environments the
two markers are produced and differ. -/
theorem claim9_error_taxonomy_witness :
    (extractResumeDataAsync parseFailEnv [] ("text")).1 = parseFailedResume
    ∧ (extractResumeDataAsync unreachableEnv [] ("text")).1
      = apiErrDict ("Connection error")
    ∧ parseFailedResume ≠ apiErrDict ("Connection error") :=
  ⟨(claim9_error_taxonomy parseFailEnv [] ("text") ("response text")
      ("Connection error") rfl).1 rfl rfl,
    (claim9_error_taxonomy unreachableEnv [] ("text") ("response text")
      ("Connection error") rfl).2.1 rfl,
    (claim9_error_taxonomy unreachableEnv [] ("text") ("response text")
      ("Connection error") rfl).2.2 ("Connection error")⟩

/-- Claim C10: a cached falsy (empty) record does not count as a hit — the miss
path runs and one fresh generation-client call is made; a cached truthy record
short-circuits the call entirely and is returned unchanged. -/
theorem claim10_truthiness (env : AnalyzerEnv) (c : AnalyzerCache) (t : String)
    (r : PyDict) :
    (cacheGet c (resumeCacheKey env t) = some r → r = [] →
      extractResumeDataAsync env c t = extractResumeDataAsyncMiss env c t
      ∧ (extractResumeDataAsync env c t).2.2 = 1)
    ∧ (cacheGet c (resumeCacheKey env t) = some r → r ≠ [] →
      extractResumeDataAsync env c t = (r, c, 0)) := by
  constructor
  · intro hget hr
    have hpath : extractResumeDataAsync env c t = extractResumeDataAsyncMiss env c t := by
      unfold extractResumeDataAsync
      rw [hget, hr]
      simp [pyDictTruthy]
    exact ⟨hpath, by rw [hpath]; exact extractResumeMissCallsOne env c t⟩
  · intro hget hr
    have htr : pyDictTruthy r = true := by
      unfold pyDictTruthy
      cases r with
      | nil => exact absurd rfl hr
      | cons a l => rfl
    unfold extractResumeDataAsync
    rw [hget]
    simp [htr]

/-- Witness for C10: a falsy cached entry leads to a network call; a truthy one
is served from the cache. -/
theorem claim10_truthiness_witness :
    (extractResumeDataAsync okServiceEnv falsyEntryCache ("t")).2.2 = 1
    ∧ extractResumeDataAsync okServiceEnv truthyEntryCache ("t")
      = (sampleResumeRecord, truthyEntryCache, 0) :=
  ⟨((claim10_truthiness okServiceEnv falsyEntryCache ("t") []).1 rfl rfl).2,
    (claim10_truthiness okServiceEnv truthyEntryCache ("t") sampleResumeRecord).2
      rfl (by decide)⟩

/-- Counterexample to C3 as stated: with an unreachable generation client (every
call raises) but healthy concurrency machinery, `extract_data_concurrent` returns
from tier 1 alone — the failed client call is caught inside the extractor and
becomes an embedded `ServiceError` result, which tier 1 delivers as a legitimate
value — so the three tiers are not all attempted and the returned error is the
`Failed to extract resume data` marker, not `Concurrent extraction failed`. -/
theorem claim3_counterexample :
    (extractDataConcurrent unreachableEnv [] ("r") ("j")).2.2 = [1]
    ∧ (extractDataConcurrent unreachableEnv [] ("r") ("j")).2.2 ≠ [1, 2, 3]
    ∧ (extractDataConcurrent unreachableEnv [] ("r") ("j")).1
      = ConcResult.err failedResumeMsg (some (apiErrDict ("Connection error"))) :=
  ⟨rfl, by decide, rfl⟩

/-- Claim C3 (amended): whenever the generation client is unreachable (the resume
extraction call raises) and tier 1's own machinery is healthy, `ExtractBoth`
neither raises nor falls through: tier 1 alone runs and its result — the
`Failed to extract resume data` error with the `ServiceError` details embedded —
is returned; the `Concurrent extraction failed` marker is reserved for failures
of the tier machinery itself. -/
theorem claim3_amended (env : AnalyzerEnv) (c : AnalyzerCache) (rt jt e : String)
    (hconc : env.concAsyncExn = none)
    (htier1 : env.tier1Exn = false)
    (hmiss : cacheGet c (resumeCacheKey env rt) = none)
    (hgen : env.genAsync (resumeGenReqAsync rt) = Except.error e) :
    (extractDataConcurrent env c rt jt).1
      = ConcResult.err failedResumeMsg (some (apiErrDict e))
    ∧ (extractDataConcurrent env c rt jt).2.2 = [1] := by
  have hres : extractResumeDataAsync env c rt = (apiErrDict e, c, 1) := by
    unfold extractResumeDataAsync
    rw [hmiss]
    unfold extractResumeDataAsyncMiss
    simp only [hgen]
  have herr : hasErrorKey (apiErrDict e) = true := rfl
  unfold extractDataConcurrent extractDataConcurrentAsync
  rw [htier1, hconc]
  simp only [hres, herr]
  simp

/-- Witness for C3 (amended): the concrete unreachable environment. -/
theorem claim3_amended_witness :
    (extractDataConcurrent unreachableEnv [] ("resume") ("job")).1
      = ConcResult.err failedResumeMsg (some (apiErrDict ("Connection error")))
    ∧ (extractDataConcurrent unreachableEnv [] ("resume") ("job")).2.2 = [1] :=
  claim3_amended unreachableEnv [] ("resume") ("job") ("Connection error")
    rfl rfl rfl rfl

/-- Claim C8: a clean `ExtractionError` (the service answered, the response did
not parse) is returned as the coordinator result of the tier that produced it —
tier 1 when its machinery is healthy, tier 2 when tier 1's machinery failed —
and never causes fallthrough to a later tier. -/
theorem claim8_no_fallthrough (env : AnalyzerEnv) (c : AnalyzerCache)
    (rt jt content : String)
    (hconc : env.concAsyncExn = none)
    (hmiss : cacheGet c (resumeCacheKey env rt) = none)
    (hgen : env.genAsync (resumeGenReqAsync rt) = Except.ok content)
    (hparse : env.jsonParse content = none) :
    (env.tier1Exn = false →
      (extractDataConcurrent env c rt jt).1
        = ConcResult.err failedResumeMsg (some parseFailedResume)
      ∧ (extractDataConcurrent env c rt jt).2.2 = [1])
    ∧ (env.tier1Exn = true → env.tier2Exn = false →
      (extractDataConcurrent env c rt jt).1
        = ConcResult.err failedResumeMsg (some parseFailedResume)
      ∧ (extractDataConcurrent env c rt jt).2.2 = [1, 2]) := by
  have hres : extractResumeDataAsync env c rt = (parseFailedResume, c, 1) := by
    unfold extractResumeDataAsync
    rw [hmiss]
    unfold extractResumeDataAsyncMiss
    simp only [hgen, hparse]
  have herr : hasErrorKey parseFailedResume = true := rfl
  constructor
  · intro htier1
    unfold extractDataConcurrent extractDataConcurrentAsync
    rw [htier1, hconc]
    simp only [hres, herr]
    simp
  · intro htier1 htier2
    unfold extractDataConcurrent extractTier2
    rw [htier1, htier2]
    simp only [hres, herr]
    simp

/-- Witness for C8: the concrete parse-failure environment, both tier legs. -/
theorem claim8_no_fallthrough_witness :
    ((extractDataConcurrent parseFailEnv [] ("resume") ("job")).1
      = ConcResult.err failedResumeMsg (some parseFailedResume)
      ∧ (extractDataConcurrent parseFailEnv [] ("resume") ("job")).2.2 = [1])
    ∧ ((extractDataConcurrent { parseFailEnv with tier1Exn := true } [] ("resume") ("job")).1
      = ConcResult.err failedResumeMsg (some parseFailedResume)
      ∧ (extractDataConcurrent { parseFailEnv with tier1Exn := true } [] ("resume") ("job")).2.2
        = [1, 2]) :=
  ⟨(claim8_no_fallthrough parseFailEnv [] ("resume") ("job") ("response text")
      rfl rfl rfl rfl).1 rfl,
    (claim8_no_fallthrough { parseFailEnv with tier1Exn := true } [] ("resume") ("job")
      ("response text") rfl rfl rfl rfl).2 rfl rfl⟩

theorem concAsyncErrMsgNonempty (env : AnalyzerEnv) (c : AnalyzerCache)
    (rt jt m : String) (d : Option PyDict)
    (h : (extractDataConcurrentAsync env c rt jt).1 = ConcResult.err m d) : m ≠ "" := by
  unfold extractDataConcurrentAsync at h
  split at h
  · simp at h
    rw [← h.1]
    exact strAppendNeEmpty concFailedMsg _ (by decide)
  · dsimp only at h
    split at h
    · simp at h
      rw [← h.1]
      decide
    · split at h
      · simp at h
        rw [← h.1]
        decide
      · simp at h

theorem syncTierErrMsgNonempty (env : AnalyzerEnv) (c : AnalyzerCache)
    (rt jt m : String) (d : Option PyDict)
    (h : (extractDataConcurrentSyncTier env c rt jt).1 = ConcResult.err m d) : m ≠ "" := by
  unfold extractDataConcurrentSyncTier at h
  split at h
  · simp at h
    rw [← h.1]
    exact strAppendNeEmpty concFailedMsg _ (by decide)
  · dsimp only at h
    split at h
    · simp at h
      rw [← h.1]
      decide
    · split at h
      · simp at h
        rw [← h.1]
        decide
      · simp at h

theorem tier2ErrMsgNonempty (env : AnalyzerEnv) (c : AnalyzerCache)
    (rt jt m : String) (d : Option PyDict)
    (h : (extractTier2 env c rt jt).1 = ConcResult.err m d) : m ≠ "" := by
  unfold extractTier2 at h
  split at h
  · exact syncTierErrMsgNonempty env c rt jt m d h
  · dsimp only at h
    split at h
    · simp at h
      rw [← h.1]
      decide
    · split at h
      · simp at h
        rw [← h.1]
        decide
      · simp at h

theorem concErrMsgNonempty (env : AnalyzerEnv) (c : AnalyzerCache)
    (rt jt m : String) (d : Option PyDict)
    (h : (extractDataConcurrent env c rt jt).1 = ConcResult.err m d) : m ≠ "" := by
  unfold extractDataConcurrent at h
  split at h
  · exact tier2ErrMsgNonempty env c rt jt m d h
  · exact concAsyncErrMsgNonempty env c rt jt m d h

theorem analyzeAsyncComplete (env : AnalyzerEnv) (c : AnalyzerCache) (rt jt : String) :
    (analyzeResumeJobMatchFastAsync env c rt jt).1.complete := by
  unfold analyzeResumeJobMatchFastAsync
  cases hx : env.analyzeAsyncExn with
  | some mm =>
    show (analysisFailedMsg ++ mm) ≠ ""
    exact strAppendNeEmpty analysisFailedMsg mm (by decide)
  | none =>
    cases hc : (extractDataConcurrentAsync env c rt jt).1 with
    | err m d =>
      simp only [hc]
      exact concAsyncErrMsgNonempty env c rt jt m d hc
    | ok rd jr =>
      simp only [hc]
      trivial

theorem analyzeSyncComplete (env : AnalyzerEnv) (c : AnalyzerCache) (rt jt : String) :
    (analyzeResumeJobMatchFastSync env c rt jt).1.complete := by
  unfold analyzeResumeJobMatchFastSync
  cases hc : (extractDataConcurrent env c rt jt).1 with
  | err m d =>
    simp only [hc]
    exact concErrMsgNonempty env c rt jt m d hc
  | ok rd jr =>
    simp only [hc]
    trivial

theorem batchAsyncSpec (env : AnalyzerEnv) :
    ∀ (pairs : List (String × String)) (c : AnalyzerCache),
      (analyzeBatchAsync env c pairs).1.length = pairs.length
      ∧ ∀ res ∈ (analyzeBatchAsync env c pairs).1, res.complete := by
  intro pairs
  induction pairs with
  | nil => intro c; exact ⟨rfl, by intro res h; simp [analyzeBatchAsync] at h⟩
  | cons p rest ih =>
    intro c
    constructor
    · simp only [analyzeBatchAsync, List.length_cons]
      rw [(ih _).1]
    · intro res hres
      simp only [analyzeBatchAsync, List.mem_cons] at hres
      cases hres with
      | inl hEq => rw [hEq]; exact analyzeAsyncComplete env c p.1 p.2
      | inr hMem => exact (ih _).2 res hMem

theorem batchSyncSpec (env : AnalyzerEnv) :
    ∀ (pairs : List (String × String)) (c : AnalyzerCache),
      (analyzeBatchSync env c pairs).1.length = pairs.length
      ∧ ∀ res ∈ (analyzeBatchSync env c pairs).1, res.complete := by
  intro pairs
  induction pairs with
  | nil => intro c; exact ⟨rfl, by intro res h; simp [analyzeBatchSync] at h⟩
  | cons p rest ih =>
    intro c
    constructor
    · simp only [analyzeBatchSync, List.length_cons]
      rw [(ih _).1]
    · intro res hres
      simp only [analyzeBatchSync, List.mem_cons] at hres
      cases hres with
      | inl hEq => rw [hEq]; exact analyzeSyncComplete env c p.1 p.2
      | inr hMem => exact (ih _).2 res hMem

/-- Claim C2: for every environment — every combination of client failures, parse
failures and machinery failures — `Analyze` returns a structurally complete
result (a full result, or an error dict with a nonempty marker), `AnalyzeMany`
returns one such result per input pair, and a `Score` error marker is always a
nonempty message; no failure surfaces other than as an embedded value. -/
theorem claim2_error_embedding (env : AnalyzerEnv) (cache : AnalyzerCache)
    (rt jt : String) (pairs : List (String × String))
    (resumeData jobRequirements : PyDict) :
    (analyzeResumeJobMatchFast env cache rt jt).1.complete
    ∧ (analyzeMultipleResumes env cache pairs).1.length = pairs.length
    ∧ (∀ res ∈ (analyzeMultipleResumes env cache pairs).1, res.complete)
    ∧ (∀ m, (explainMatchScore env resumeData jobRequirements).error = some m → m ≠ "") := by
  refine ⟨?_, ?_, ?_, ?_⟩
  · unfold analyzeResumeJobMatchFast
    split
    · exact analyzeSyncComplete env cache rt jt
    · exact analyzeAsyncComplete env cache rt jt
  · unfold analyzeMultipleResumes
    split
    · exact (batchSyncSpec env pairs cache).1
    · exact (batchAsyncSpec env pairs cache).1
  · unfold analyzeMultipleResumes
    split
    · exact (batchSyncSpec env pairs cache).2
    · exact (batchAsyncSpec env pairs cache).2
  · intro m hm
    unfold explainMatchScore explainMatchScoreAsync explainMatchScoreSync at hm
    split at hm
    · split at hm
      · simp at hm
      · simp at hm
        rw [← hm]
        exact strAppendNeEmpty apiCallFailedMsg _ (by decide)
    · split at hm
      · simp at hm
      · simp at hm
        rw [← hm]
        exact strAppendNeEmpty apiCallFailedMsg _ (by decide)

/-- Witness for C2: a concrete batch over an unreachable service still yields one
complete result per pair, and the concrete error marker is nonempty. -/
theorem claim2_error_embedding_witness :
    (analyzeMultipleResumes unreachableEnv [] [(("r1"), ("j1")), (("r2"), ("j2"))]).1.length = 2
    ∧ (apiCallFailedMsg ++ "Connection error") ≠ "" :=
  ⟨(claim2_error_embedding unreachableEnv [] ("r") ("j")
      [(("r1"), ("j1")), (("r2"), ("j2"))] sampleResumeRecord sampleResumeRecord).2.1,
    (claim2_error_embedding unreachableEnv [] ("r") ("j")
      [(("r1"), ("j1")), (("r2"), ("j2"))] sampleResumeRecord sampleResumeRecord).2.2.2
      (apiCallFailedMsg ++ "Connection error") rfl⟩
